import Mathlib

/-!
Shallow embedding of the `23M/kafkaconnector` Go package (files
`consumer.go` and the connector file) and proofs about the claims of its
specification.

The connector wraps a Kafka client library.  Library calls
(`cluster.NewConsumer`, `sarama.NewAsyncProducer`, `x509.SystemCertPool`,
`proto.Unmarshal`) are modelled as parameters (`Except`-valued outcomes or
an abstract decode function); everything the repository itself does —
field updates, channel creation, channel closing, goroutine spawning,
logging, the per-message consume loop — is translated directly from the
source.

Go channels are modelled by an identity (allocation index) and a capacity,
with a world that records the allocation counter and the set of closed
channel ids; `close` on an already-closed channel is a runtime fault, as
in Go.
-/

namespace KafkaConnector

/-- A Go channel value: its allocation identity and its buffer capacity
(`make(chan T, cap)`). -/
structure GoChan where
  id : Nat
  capacity : Nat
deriving DecidableEq, Repr

/-- The ambient state of the Go runtime that the embedding needs: a counter
handing out fresh channel identities and the set of ids of channels that
have been closed. -/
structure World where
  nextId : Nat
  closedIds : List Nat
deriving DecidableEq, Repr

/-- The runtime state at process start. -/
def World.start : World := ⟨0, []⟩

/-- `make(chan T, cap)`: allocates a fresh, open channel. -/
def makeChan (w : World) (cap : Nat) : World × GoChan :=
  ({ w with nextId := w.nextId + 1 }, ⟨w.nextId, cap⟩)

/-- A fatal runtime fault (a Go `panic`), carrying its message. -/
abbrev Fault := String

/-- `close(ch)`: closing an already-closed channel is a runtime fault, as in
Go; otherwise the channel id is recorded as closed. -/
def closeChan (w : World) (ch : GoChan) : Except Fault World :=
  if ch.id ∈ w.closedIds then Except.error "close of closed channel"
  else Except.ok { w with closedIds := ch.id :: w.closedIds }

/-- The goroutines the connector spawns in the background: the
decode/encode bridge loops and the optional logger loops. -/
inductive Goroutine where
  | decodeMessagesG
  | consumerLoggerG
  | encodeMessagesG
  | producerLoggerG
deriving DecidableEq, Repr

/-- The `Connector` struct.  Field for field the Go struct: credentials,
optional library session handles (modelled as opaque `Nat` handles, `none`
being the Go `nil`), the typed channels, the manual-error-handling flag and
signal channel, and the configured channel length.  The defaults are the Go
zero values. -/
structure Connector where
  user : String := ""
  pass : String := ""
  consumer : Option Nat := none
  producer : Option Nat := none
  consumerChannel : Option GoChan := none
  producerChannel : Option GoChan := none
  manualErrFlag : Bool := false
  manualErrSignal : Option GoChan := none
  channelLength : Nat := 0
deriving DecidableEq, Repr

/-- A fresh `Connector` (Go zero value). -/
def Connector.mk0 : Connector := {}

/-- `SetAuth`: explicitly set the SASL/PLAIN credential pair. -/
def setAuth (c : Connector) (user pass : String) : Connector :=
  { c with user := user, pass := pass }

/-- The error message `SetAuthFromEnv` returns. -/
def envAuthErr : String :=
  "Setting Kafka SASL info from Environment was unsuccessful."

/-- `SetAuthFromEnv`: reads `KAFKA_SASL_USER` and `KAFKA_SASL_PASS` from the
environment (modelled as a total function, `os.Getenv` returning `""` for an
absent variable), stores them in the connector unconditionally, and then
errors if either is empty.  Returns the updated connector and the returned
`error` (`none` is the Go `nil`). -/
def setAuthFromEnv (env : String → String) (c : Connector) :
    Connector × Option String :=
  let c := { c with
    user := env "KAFKA_SASL_USER",
    pass := env "KAFKA_SASL_PASS" }
  if c.user = "" || c.pass = "" then
    (c, some envAuthErr)
  else
    (c, none)

/-- `SetAuthAnon`: anonymous credentials. -/
def setAuthAnon (c : Connector) : Connector :=
  { c with user := "anon", pass := "anon" }

/-- `SetChannelLength`. -/
def setChannelLength (c : Connector) (l : Nat) : Connector :=
  { c with channelLength := l }

/-- `EnableManualErrorHandling`: sets the flag and, when the signal channel
exists, closes it.  Closing it twice is a runtime fault (Go: close of a
closed channel). -/
def enableManualErrorHandling (w : World) (c : Connector) :
    Except Fault (World × Connector) :=
  let c := { c with manualErrFlag := true }
  match c.manualErrSignal with
  | none => Except.ok (w, c)
  | some ch => (closeChan w ch).map fun w2 => (w2, c)

/-- What a `Start*` call produces: the updated runtime and connector, the
list of goroutines it spawned, and the returned `error`. -/
structure StartResult where
  world : World
  connector : Connector
  spawned : List Goroutine
  err : Option String
deriving DecidableEq, Repr

/-- The prologue shared verbatim by `StartConsumer` and `StartProducer`:
when manual error handling is off and no signal channel exists yet, an
unbuffered signal channel is created. -/
def initManualErrSignal (w : World) (c : Connector) : World × Connector :=
  if !c.manualErrFlag && c.manualErrSignal.isNone then
    let p := makeChan w 0
    (p.1, { c with manualErrSignal := some p.2 })
  else (w, c)

/-- `StartConsumer`.  The library calls are parameters: `certPool` is the
outcome of `x509.SystemCertPool`, `newConsumer` the outcome of
`cluster.NewConsumer` (an opaque handle on success, Go `nil` on error —
the multiple assignment `connector.consumer, err = ...` overwrites the
stored handle either way).  Faithful to the source: first the manual-error
signal channel is created when the flag is unset and no signal exists; a
cert-pool error or a `NewConsumer` error is returned with nothing spawned;
on success the session handle is stored, a fresh typed channel of capacity
`channelLength` is created, the `decodeMessages` goroutine is spawned, and
a consumer-logger goroutine is spawned exactly when the manual flag is
unset. -/
def startConsumer (certPool : Except String Unit)
    (newConsumer : Except String Nat) (w : World) (c : Connector) :
    StartResult :=
  let wc := initManualErrSignal w c
  match certPool with
  | Except.error e => ⟨wc.1, wc.2, [], some e⟩
  | Except.ok () =>
    match newConsumer with
    | Except.error e => ⟨wc.1, { wc.2 with consumer := none }, [], some e⟩
    | Except.ok h =>
      let c2 := { wc.2 with consumer := some h }
      let p := makeChan wc.1 c2.channelLength
      let c3 := { c2 with consumerChannel := some p.2 }
      ⟨p.1, c3,
        Goroutine.decodeMessagesG ::
          (if !c3.manualErrFlag then [Goroutine.consumerLoggerG] else []),
        none⟩

/-- `StartProducer`.  `newProducer` is the outcome of
`sarama.NewAsyncProducer` (with the same overwrite-on-error multiple
assignment).  Mirrors the source: signal-channel creation, synchronous
error return, fresh typed channel of capacity `channelLength`, the
`encodeMessages` goroutine, and a producer-logger goroutine exactly when
the manual flag is unset. -/
def startProducer (newProducer : Except String Nat) (w : World)
    (c : Connector) : StartResult :=
  let wc := initManualErrSignal w c
  match newProducer with
  | Except.error e => ⟨wc.1, { wc.2 with producer := none }, [], some e⟩
  | Except.ok h =>
    let c2 := { wc.2 with producer := some h }
    let p := makeChan wc.1 c2.channelLength
    let c3 := { c2 with producerChannel := some p.2 }
    ⟨p.1, c3,
      Goroutine.encodeMessagesG ::
        (if !c3.manualErrFlag then [Goroutine.producerLoggerG] else []),
      none⟩

/-- What a `Close*` call produces: the connector (the source never resets
any field, the library session is merely closed) and the log lines it
emits. -/
structure CloseResult where
  connector : Connector
  logs : List String
deriving DecidableEq, Repr

/-- `Close`: closes the library consumer session when one exists, then the
producer session when one exists, logging each; nothing is logged for an
absent session (the source has no `else` branch here). -/
def closeConnector (c : Connector) : CloseResult :=
  let logs1 := match c.consumer with
    | some _ => ["Kafka Consumer connection closed."]
    | none => []
  let logs2 := match c.producer with
    | some _ => ["Kafka Producer connection closed."]
    | none => []
  ⟨c, logs1 ++ logs2⟩

/-- `CloseConsumer`: closes the consumer session when one exists, else logs
a warning. -/
def closeConsumer (c : Connector) : CloseResult :=
  match c.consumer with
  | some _ => ⟨c, ["Kafka Consumer connection closed."]⟩
  | none => ⟨c, ["WARNING: CloseConsumer called, but no Consumer was initialized."]⟩

/-- `CloseProducer`: closes the producer session when one exists, else logs
a warning. -/
def closeProducer (c : Connector) : CloseResult :=
  match c.producer with
  | some _ => ⟨c, ["Kafka Producer connection closed."]⟩
  | none => ⟨c, ["WARNING: CloseProducer called, but no Producer was initialized."]⟩

/-! ## The sarama consumer-group handler (`consumer.go`) -/

/-- A claimed Kafka message; only its payload bytes matter to the handler. -/
structure KafkaMessage where
  value : List Nat
deriving DecidableEq, Repr

/-- The `Consumer` struct of `consumer.go`: the `ready` channel and the
typed `flows` channel (the `cancel` function is opaque to the claims). -/
structure GroupConsumer where
  ready : GoChan
  flows : Option GoChan
deriving DecidableEq, Repr

/-- `Consumer.Setup`: creates the unbuffered `flows` channel, then
`close(consumer.ready)` — a runtime fault if `ready` was already closed
(as on a repeated `Setup`). -/
def groupConsumerSetup (w : World) (c : GroupConsumer) :
    Except Fault (World × GroupConsumer) :=
  let (w2, fch) := makeChan w 0
  let c := { c with flows := some fch }
  (closeChan w2 c.ready).map fun w3 => (w3, c)

/-- The observable effects of a `ConsumeClaim` run: the messages marked via
`session.MarkMessage`, the decoded flows sent to the `flows` channel (in
send order), and the log lines emitted. -/
structure ClaimState (F : Type) where
  marked : List KafkaMessage
  flows : List F
  logged : List String
deriving Repr

/-- The log line the consume loop emits for an undecodable payload. -/
def brokenMsgLog : String := "decodeMessages: Received broken message"

/-- `Consumer.ConsumeClaim`: per claimed message, first `MarkMessage`, then
`proto.Unmarshal` (modelled by the abstract decoder `dec`); on a decode
error the failure is logged and the loop `continue`s, otherwise the decoded
flow is sent on the typed channel.  After the range ends the method returns
`nil` (the `Option String` component is the returned `error`). -/
def consumeClaim {F : Type} (dec : List Nat → Except String F) :
    List KafkaMessage → ClaimState F → ClaimState F × Option String
  | [], st => (st, none)
  | m :: rest, st =>
    let st := { st with marked := st.marked ++ [m] }
    match dec m.value with
    | Except.error _ =>
      consumeClaim dec rest { st with logged := st.logged ++ [brokenMsgLog] }
    | Except.ok fm =>
      consumeClaim dec rest { st with flows := st.flows ++ [fm] }

/-! ## Traces of exported `Connector` operations

To reason about arbitrary calling orders, the exported operations are
reified as an operation alphabet; `Start*` operations carry the outcomes of
their library calls. -/

/-- One exported `Connector` call. -/
inductive Op where
  | setAuthOp (user pass : String)
  | setAuthFromEnvOp (env : String → String)
  | setAuthAnonOp
  | setChannelLengthOp (l : Nat)
  | enableOp
  | startConsumerOp (certPool : Except String Unit)
      (newConsumer : Except String Nat)
  | startProducerOp (newProducer : Except String Nat)
  | closeOp
  | closeConsumerOp
  | closeProducerOp

/-- Execute one exported call.  Only `EnableManualErrorHandling` can raise a
runtime fault (it is the only exported `Connector` operation that executes
a Go `close`); every other call returns normally, possibly with a returned
`error` that the trace semantics discards. -/
def step (s : World × Connector) : Op → Except Fault (World × Connector)
  | Op.setAuthOp u p => Except.ok (s.1, setAuth s.2 u p)
  | Op.setAuthFromEnvOp env => Except.ok (s.1, (setAuthFromEnv env s.2).1)
  | Op.setAuthAnonOp => Except.ok (s.1, setAuthAnon s.2)
  | Op.setChannelLengthOp l => Except.ok (s.1, setChannelLength s.2 l)
  | Op.enableOp => enableManualErrorHandling s.1 s.2
  | Op.startConsumerOp cert nc =>
    let r := startConsumer cert nc s.1 s.2
    Except.ok (r.world, r.connector)
  | Op.startProducerOp np =>
    let r := startProducer np s.1 s.2
    Except.ok (r.world, r.connector)
  | Op.closeOp => Except.ok (s.1, (closeConnector s.2).connector)
  | Op.closeConsumerOp => Except.ok (s.1, (closeConsumer s.2).connector)
  | Op.closeProducerOp => Except.ok (s.1, (closeProducer s.2).connector)

/-- Execute a sequence of exported calls from a given state, stopping at the
first runtime fault. -/
def runFrom (s : World × Connector) : List Op → Except Fault (World × Connector)
  | [] => Except.ok s
  | op :: rest => (step s op).bind fun s2 => runFrom s2 rest

/-- Execute a sequence of exported calls on a freshly constructed
`Connector`. -/
def run (ops : List Op) : Except Fault (World × Connector) :=
  runFrom (World.start, Connector.mk0) ops

/-- Whether an operation is the `EnableManualErrorHandling` call. -/
def isEnableOp : Op → Bool
  | Op.enableOp => true
  | _ => false

/-- How many times a trace calls `EnableManualErrorHandling`. -/
def countEnable : List Op → Nat
  | [] => 0
  | op :: rest => countEnable rest + (if isEnableOp op then 1 else 0)

/-- All closed channel ids were actually allocated. -/
def worldSafe (w : World) : Prop := ∀ i ∈ w.closedIds, i < w.nextId

/-- The manual-error signal channel, when it exists, was allocated and has
not been closed yet. -/
def signalSafe (w : World) (c : Connector) : Prop :=
  ∀ ch : GoChan, c.manualErrSignal = some ch →
    ch.id < w.nextId ∧ ch.id ∉ w.closedIds

/-! ## Helper lemmas -/

/-- The connector returned by `SetAuthFromEnv` is the input with both
credential fields overwritten by the environment values, whether or not an
error is returned. -/
theorem setAuthFromEnv_fst (env : String → String) (c : Connector) :
    (setAuthFromEnv env c).1 =
      { c with user := env "KAFKA_SASL_USER", pass := env "KAFKA_SASL_PASS" } := by
  unfold setAuthFromEnv
  dsimp only
  split <;> rfl

/-- `SetAuthFromEnv` returns an error exactly when one of the two
environment values is empty. -/
theorem setAuthFromEnv_snd (env : String → String) (c : Connector) :
    (setAuthFromEnv env c).2 =
      if env "KAFKA_SASL_USER" = "" || env "KAFKA_SASL_PASS" = "" then
        some envAuthErr
      else none := by
  unfold setAuthFromEnv
  dsimp only
  by_cases h1 : env "KAFKA_SASL_USER" = "" <;>
    by_cases h2 : env "KAFKA_SASL_PASS" = "" <;> simp [h1, h2]

theorem initSig_closedIds (w : World) (c : Connector) :
    (initManualErrSignal w c).1.closedIds = w.closedIds := by
  unfold initManualErrSignal makeChan
  split <;> rfl

theorem initSig_nextId_le (w : World) (c : Connector) :
    w.nextId ≤ (initManualErrSignal w c).1.nextId := by
  unfold initManualErrSignal makeChan
  split
  · exact Nat.le_succ _
  · exact Nat.le_refl _

theorem initSig_channelLength (w : World) (c : Connector) :
    (initManualErrSignal w c).2.channelLength = c.channelLength := by
  unfold initManualErrSignal makeChan
  split <;> rfl

theorem initSig_consumerChannel (w : World) (c : Connector) :
    (initManualErrSignal w c).2.consumerChannel = c.consumerChannel := by
  unfold initManualErrSignal makeChan
  split <;> rfl

theorem initSig_producerChannel (w : World) (c : Connector) :
    (initManualErrSignal w c).2.producerChannel = c.producerChannel := by
  unfold initManualErrSignal makeChan
  split <;> rfl

theorem initSig_manualErrFlag (w : World) (c : Connector) :
    (initManualErrSignal w c).2.manualErrFlag = c.manualErrFlag := by
  unfold initManualErrSignal makeChan
  split <;> rfl

/-- The signal channel after the shared `Start*` prologue: either untouched,
or freshly allocated (with the allocation counter advanced past it). -/
theorem initSig_signal (w : World) (c : Connector) :
    (initManualErrSignal w c).2.manualErrSignal = c.manualErrSignal ∨
      ((initManualErrSignal w c).2.manualErrSignal = some ⟨w.nextId, 0⟩ ∧
        w.nextId < (initManualErrSignal w c).1.nextId) := by
  unfold initManualErrSignal makeChan
  split
  · exact Or.inr ⟨rfl, Nat.lt_succ_self _⟩
  · exact Or.inl rfl

/-- With manual error handling already enabled the shared prologue is the
identity. -/
theorem initSig_of_flag (w : World) (c : Connector)
    (h : c.manualErrFlag = true) : initManualErrSignal w c = (w, c) := by
  unfold initManualErrSignal
  simp [h]

theorem startConsumer_err_certErr (e : String) (nc : Except String Nat)
    (w : World) (c : Connector) :
    (startConsumer (Except.error e) nc w c).err = some e := rfl

theorem startConsumer_err_ncErr (e : String) (w : World) (c : Connector) :
    (startConsumer (Except.ok ()) (Except.error e) w c).err = some e := rfl

theorem startConsumer_err_ok (h : Nat) (w : World) (c : Connector) :
    (startConsumer (Except.ok ()) (Except.ok h) w c).err = none := rfl

theorem startConsumer_spawned_certErr (e : String) (nc : Except String Nat)
    (w : World) (c : Connector) :
    (startConsumer (Except.error e) nc w c).spawned = [] := rfl

theorem startConsumer_spawned_ncErr (e : String) (w : World) (c : Connector) :
    (startConsumer (Except.ok ()) (Except.error e) w c).spawned = [] := rfl

theorem startConsumer_spawned_ok (h : Nat) (w : World) (c : Connector) :
    (startConsumer (Except.ok ()) (Except.ok h) w c).spawned =
      Goroutine.decodeMessagesG ::
        (if !(initManualErrSignal w c).2.manualErrFlag then
          [Goroutine.consumerLoggerG] else []) := rfl

theorem startConsumer_connector_certErr (e : String) (nc : Except String Nat)
    (w : World) (c : Connector) :
    (startConsumer (Except.error e) nc w c).connector =
      (initManualErrSignal w c).2 := rfl

theorem startConsumer_connector_ncErr (e : String) (w : World) (c : Connector) :
    (startConsumer (Except.ok ()) (Except.error e) w c).connector =
      { (initManualErrSignal w c).2 with consumer := none } := rfl

theorem startConsumer_connector_ok (h : Nat) (w : World) (c : Connector) :
    (startConsumer (Except.ok ()) (Except.ok h) w c).connector =
      { (initManualErrSignal w c).2 with
        consumer := some h,
        consumerChannel := some
          ⟨(initManualErrSignal w c).1.nextId,
            (initManualErrSignal w c).2.channelLength⟩ } := rfl

theorem startProducer_err_prodErr (e : String) (w : World) (c : Connector) :
    (startProducer (Except.error e) w c).err = some e := rfl

theorem startProducer_err_ok (h : Nat) (w : World) (c : Connector) :
    (startProducer (Except.ok h) w c).err = none := rfl

theorem startProducer_spawned_prodErr (e : String) (w : World) (c : Connector) :
    (startProducer (Except.error e) w c).spawned = [] := rfl

theorem startProducer_spawned_ok (h : Nat) (w : World) (c : Connector) :
    (startProducer (Except.ok h) w c).spawned =
      Goroutine.encodeMessagesG ::
        (if !(initManualErrSignal w c).2.manualErrFlag then
          [Goroutine.producerLoggerG] else []) := rfl

theorem startProducer_connector_prodErr (e : String) (w : World) (c : Connector) :
    (startProducer (Except.error e) w c).connector =
      { (initManualErrSignal w c).2 with producer := none } := rfl

theorem startProducer_connector_ok (h : Nat) (w : World) (c : Connector) :
    (startProducer (Except.ok h) w c).connector =
      { (initManualErrSignal w c).2 with
        producer := some h,
        producerChannel := some
          ⟨(initManualErrSignal w c).1.nextId,
            (initManualErrSignal w c).2.channelLength⟩ } := rfl

/-- `StartConsumer` never closes a channel: the closed set is untouched. -/
theorem startConsumer_closedIds (cert : Except String Unit)
    (nc : Except String Nat) (w : World) (c : Connector) :
    (startConsumer cert nc w c).world.closedIds = w.closedIds := by
  rcases cert with e | ⟨⟩
  · exact initSig_closedIds w c
  · rcases nc with e | h
    · exact initSig_closedIds w c
    · show (initManualErrSignal w c).1.closedIds = w.closedIds
      exact initSig_closedIds w c

/-- The allocation counter never decreases across `StartConsumer`, and in
particular stays at or above its value after the shared prologue. -/
theorem startConsumer_nextId_init_le (cert : Except String Unit)
    (nc : Except String Nat) (w : World) (c : Connector) :
    (initManualErrSignal w c).1.nextId ≤ (startConsumer cert nc w c).world.nextId := by
  rcases cert with e | ⟨⟩
  · exact Nat.le_refl _
  · rcases nc with e | h
    · exact Nat.le_refl _
    · exact Nat.le_succ _

theorem startConsumer_nextId_le (cert : Except String Unit)
    (nc : Except String Nat) (w : World) (c : Connector) :
    w.nextId ≤ (startConsumer cert nc w c).world.nextId :=
  Nat.le_trans (initSig_nextId_le w c) (startConsumer_nextId_init_le cert nc w c)

/-- The signal channel after `StartConsumer` is whatever the shared
prologue left. -/
theorem startConsumer_signal (cert : Except String Unit)
    (nc : Except String Nat) (w : World) (c : Connector) :
    (startConsumer cert nc w c).connector.manualErrSignal =
      (initManualErrSignal w c).2.manualErrSignal := by
  rcases cert with e | ⟨⟩
  · rfl
  · rcases nc with e | h <;> rfl

theorem startProducer_closedIds (np : Except String Nat) (w : World)
    (c : Connector) :
    (startProducer np w c).world.closedIds = w.closedIds := by
  rcases np with e | h
  · exact initSig_closedIds w c
  · show (initManualErrSignal w c).1.closedIds = w.closedIds
    exact initSig_closedIds w c

theorem startProducer_nextId_init_le (np : Except String Nat) (w : World)
    (c : Connector) :
    (initManualErrSignal w c).1.nextId ≤ (startProducer np w c).world.nextId := by
  rcases np with e | h
  · exact Nat.le_refl _
  · exact Nat.le_succ _

theorem startProducer_nextId_le (np : Except String Nat) (w : World)
    (c : Connector) :
    w.nextId ≤ (startProducer np w c).world.nextId :=
  Nat.le_trans (initSig_nextId_le w c) (startProducer_nextId_init_le np w c)

theorem startProducer_signal (np : Except String Nat) (w : World)
    (c : Connector) :
    (startProducer np w c).connector.manualErrSignal =
      (initManualErrSignal w c).2.manualErrSignal := by
  rcases np with e | h <;> rfl

/-- `EnableManualErrorHandling` returns normally whenever the signal
channel is absent or still open. -/
theorem enable_ok (w : World) (c : Connector) (hs : signalSafe w c) :
    ∃ s2, enableManualErrorHandling w c = Except.ok s2 := by
  unfold enableManualErrorHandling
  dsimp only
  cases h : c.manualErrSignal with
  | none => exact ⟨_, rfl⟩
  | some ch =>
    have h2 := (hs ch h).2
    dsimp only
    unfold closeChan
    rw [if_neg h2]
    exact ⟨_, rfl⟩

theorem eq_enableOp_of_isEnableOp (op : Op) (h : isEnableOp op = true) :
    op = Op.enableOp := by
  cases op <;> (try rfl) <;> simp [isEnableOp] at h

/-- Every exported call other than `EnableManualErrorHandling` returns
normally, never closes a channel, never retracts the allocation counter,
and leaves the signal channel either untouched or freshly allocated. -/
theorem step_ok_of_not_enable (s : World × Connector) (op : Op)
    (hop : isEnableOp op = false) :
    ∃ s2, step s op = Except.ok s2 ∧
      s2.1.closedIds = s.1.closedIds ∧
      s.1.nextId ≤ s2.1.nextId ∧
      (s2.2.manualErrSignal = s.2.manualErrSignal ∨
        (s2.2.manualErrSignal = some ⟨s.1.nextId, 0⟩ ∧
          s.1.nextId < s2.1.nextId)) := by
  cases op with
  | enableOp => simp [isEnableOp] at hop
  | setAuthOp u p => exact ⟨_, rfl, rfl, Nat.le_refl _, Or.inl rfl⟩
  | setAuthFromEnvOp env =>
    refine ⟨_, rfl, rfl, Nat.le_refl _, Or.inl ?_⟩
    show (setAuthFromEnv env s.2).1.manualErrSignal = s.2.manualErrSignal
    rw [setAuthFromEnv_fst]
  | setAuthAnonOp => exact ⟨_, rfl, rfl, Nat.le_refl _, Or.inl rfl⟩
  | setChannelLengthOp l => exact ⟨_, rfl, rfl, Nat.le_refl _, Or.inl rfl⟩
  | startConsumerOp cert nc =>
    refine ⟨_, rfl, startConsumer_closedIds cert nc s.1 s.2,
      startConsumer_nextId_le cert nc s.1 s.2, ?_⟩
    show (startConsumer cert nc s.1 s.2).connector.manualErrSignal =
        s.2.manualErrSignal ∨ _
    rw [startConsumer_signal]
    rcases initSig_signal s.1 s.2 with h | ⟨h1, h2⟩
    · exact Or.inl h
    · exact Or.inr ⟨h1,
        Nat.lt_of_lt_of_le h2 (startConsumer_nextId_init_le cert nc s.1 s.2)⟩
  | startProducerOp np =>
    refine ⟨_, rfl, startProducer_closedIds np s.1 s.2,
      startProducer_nextId_le np s.1 s.2, ?_⟩
    show (startProducer np s.1 s.2).connector.manualErrSignal =
        s.2.manualErrSignal ∨ _
    rw [startProducer_signal]
    rcases initSig_signal s.1 s.2 with h | ⟨h1, h2⟩
    · exact Or.inl h
    · exact Or.inr ⟨h1,
        Nat.lt_of_lt_of_le h2 (startProducer_nextId_init_le np s.1 s.2)⟩
  | closeOp => exact ⟨_, rfl, rfl, Nat.le_refl _, Or.inl rfl⟩
  | closeConsumerOp =>
    refine ⟨_, rfl, rfl, Nat.le_refl _, Or.inl ?_⟩
    show (closeConsumer s.2).connector.manualErrSignal = s.2.manualErrSignal
    cases hc : s.2.consumer <;> simp [closeConsumer, hc]
  | closeProducerOp =>
    refine ⟨_, rfl, rfl, Nat.le_refl _, Or.inl ?_⟩
    show (closeProducer s.2).connector.manualErrSignal = s.2.manualErrSignal
    cases hc : s.2.producer <;> simp [closeProducer, hc]

/-- The two safety invariants survive any step with the properties of
`step_ok_of_not_enable`. -/
theorem invPreserve (s s2 : World × Connector)
    (hclosed : s2.1.closedIds = s.1.closedIds)
    (hle : s.1.nextId ≤ s2.1.nextId)
    (hsig : s2.2.manualErrSignal = s.2.manualErrSignal ∨
      (s2.2.manualErrSignal = some ⟨s.1.nextId, 0⟩ ∧ s.1.nextId < s2.1.nextId))
    (hw : worldSafe s.1) (hs : signalSafe s.1 s.2) :
    worldSafe s2.1 ∧ signalSafe s2.1 s2.2 := by
  constructor
  · intro i hi
    rw [hclosed] at hi
    exact Nat.lt_of_lt_of_le (hw i hi) hle
  · intro ch hch
    rcases hsig with h | ⟨h1, h2⟩
    · rw [h] at hch
      have h3 := hs ch hch
      rw [hclosed]
      exact ⟨Nat.lt_of_lt_of_le h3.1 hle, h3.2⟩
    · rw [h1] at hch
      injection hch with hch
      subst hch
      rw [hclosed]
      exact ⟨h2, fun hin => absurd (hw _ hin) (Nat.lt_irrefl _)⟩

/-- A trace without any `EnableManualErrorHandling` call runs to completion
from any state. -/
theorem runFrom_ok_of_no_enable (ops : List Op) (h : countEnable ops = 0) :
    ∀ s : World × Connector, ∃ s2, runFrom s ops = Except.ok s2 := by
  induction ops with
  | nil => exact fun s => ⟨s, rfl⟩
  | cons op rest ih =>
    intro s
    have hop : isEnableOp op = false := by
      cases he : isEnableOp op
      · rfl
      · exfalso
        simp [countEnable, he] at h
    have hrest : countEnable rest = 0 := by
      simp [countEnable, hop] at h
      exact h
    obtain ⟨s2, hstep, -, -, -⟩ := step_ok_of_not_enable s op hop
    obtain ⟨s3, hs3⟩ := ih hrest s2
    exact ⟨s3, by simp [runFrom, hstep, Except.bind, hs3]⟩

/-- A trace with at most one `EnableManualErrorHandling` call runs to
completion from any state satisfying the safety invariants. -/
theorem runFrom_ok_le_one (ops : List Op) :
    ∀ s : World × Connector, countEnable ops ≤ 1 → worldSafe s.1 →
      signalSafe s.1 s.2 → ∃ s2, runFrom s ops = Except.ok s2 := by
  induction ops with
  | nil => exact fun s _ _ _ => ⟨s, rfl⟩
  | cons op rest ih =>
    intro s hcount hw hs
    cases he : isEnableOp op
    · obtain ⟨s2, hstep, hclosed, hle, hsig⟩ := step_ok_of_not_enable s op he
      obtain ⟨hw2, hs2⟩ := invPreserve s s2 hclosed hle hsig hw hs
      have hrest : countEnable rest ≤ 1 := by
        simp [countEnable, he] at hcount
        exact hcount
      obtain ⟨s3, hs3⟩ := ih s2 hrest hw2 hs2
      exact ⟨s3, by simp [runFrom, hstep, Except.bind, hs3]⟩
    · have hopeq := eq_enableOp_of_isEnableOp op he
      subst hopeq
      obtain ⟨s2, hs2⟩ := enable_ok s.1 s.2 hs
      have hrest : countEnable rest = 0 := by
        simp [countEnable, isEnableOp] at hcount
        omega
      obtain ⟨s3, hs3⟩ := runFrom_ok_of_no_enable rest hrest s2
      refine ⟨s3, ?_⟩
      show (step s Op.enableOp).bind (fun s4 => runFrom s4 rest) = Except.ok s3
      show (enableManualErrorHandling s.1 s.2).bind (fun s4 => runFrom s4 rest) =
        Except.ok s3
      rw [hs2]
      exact hs3

/-- The consume loop always returns nil. -/
theorem consumeClaim_returns_nil {F : Type} (dec : List Nat → Except String F)
    (msgs : List KafkaMessage) (st : ClaimState F) :
    (consumeClaim dec msgs st).2 = none := by
  induction msgs generalizing st with
  | nil => rfl
  | cons m rest ih =>
    cases hd : dec m.value with
    | error e => simp [consumeClaim, hd, ih]
    | ok fm => simp [consumeClaim, hd, ih]

/-! ## Claims -/

/-- C4: `SetAuthFromEnv` returns a non-nil error iff at least one of
`KAFKA_SASL_USER` and `KAFKA_SASL_PASS` is absent (empty, as `os.Getenv`
reports absence); when both are present it returns nil and the stored
user and password equal the environment values. -/
theorem claim_C4_setAuthFromEnv_err_iff (env : String → String) (c : Connector) :
    ((setAuthFromEnv env c).2.isSome ↔
      (env "KAFKA_SASL_USER" = "" ∨ env "KAFKA_SASL_PASS" = "")) ∧
    (env "KAFKA_SASL_USER" ≠ "" → env "KAFKA_SASL_PASS" ≠ "" →
      (setAuthFromEnv env c).2 = none ∧
      (setAuthFromEnv env c).1.user = env "KAFKA_SASL_USER" ∧
      (setAuthFromEnv env c).1.pass = env "KAFKA_SASL_PASS") := by
  rw [setAuthFromEnv_snd, setAuthFromEnv_fst]
  constructor
  · by_cases h1 : env "KAFKA_SASL_USER" = "" <;>
      by_cases h2 : env "KAFKA_SASL_PASS" = "" <;> simp [h1, h2]
  · intro h1 h2
    simp [h1, h2]

/-- Witness for C4 at a concrete environment holding both variables. -/
theorem claim_C4_witness :
    (setAuthFromEnv (fun v => v) Connector.mk0).2 = none ∧
    (setAuthFromEnv (fun v => v) Connector.mk0).1.user = "KAFKA_SASL_USER" := by
  have h := claim_C4_setAuthFromEnv_err_iff (fun v => v) Connector.mk0
  have h2 := h.2 (by decide) (by decide)
  exact ⟨h2.1, h2.2.1⟩

/-- C10: `SetAuthFromEnv` stores the environment values before checking
them, so whenever it returns an error the previously stored credentials
have already been overwritten with the (partially empty) environment
values — failure is not state-preserving. -/
theorem claim_C10_overwrite_on_error (env : String → String) (c : Connector)
    (h : (setAuthFromEnv env c).2.isSome) :
    (setAuthFromEnv env c).1.user = env "KAFKA_SASL_USER" ∧
    (setAuthFromEnv env c).1.pass = env "KAFKA_SASL_PASS" := by
  rw [setAuthFromEnv_fst]
  exact ⟨rfl, rfl⟩

/-- Witness for C10: a connector with credentials already set loses them
when `SetAuthFromEnv` fails against an empty environment. -/
theorem claim_C10_witness :
    (setAuthFromEnv (fun _ => "") (setAuth Connector.mk0 "alice" "secret")).2.isSome ∧
    (setAuthFromEnv (fun _ => "") (setAuth Connector.mk0 "alice" "secret")).1.user = "" := by
  refine ⟨by decide, ?_⟩
  exact (claim_C10_overwrite_on_error (fun _ => "")
    (setAuth Connector.mk0 "alice" "secret") (by decide)).1

/-- C5 counterexample: on a completely uninitialized connector `Close`
emits no log line at all — in particular no warning — refuting the claim
that each of `Close`, `CloseConsumer` and `CloseProducer` logs a warning
when uninitialized (`Close` has no `else` branch in the source). -/
theorem claim_C5_counterexample :
    Connector.mk0.consumer = none ∧ Connector.mk0.producer = none ∧
    (closeConnector Connector.mk0).logs = [] :=
  ⟨rfl, rfl, rfl⟩

/-- C5 (amended): calling `Close` twice in a row, or `CloseConsumer` /
`CloseProducer` before the corresponding session was started, cannot fault;
on an uninitialized connector all three leave the connector state
unchanged, `CloseConsumer` and `CloseProducer` each log a warning, and
`Close` logs nothing. -/
theorem claim_C5_close_idempotent (c : Connector)
    (hc : c.consumer = none) (hp : c.producer = none) :
    closeConnector c = ⟨c, []⟩ ∧
    closeConsumer c =
      ⟨c, ["WARNING: CloseConsumer called, but no Consumer was initialized."]⟩ ∧
    closeProducer c =
      ⟨c, ["WARNING: CloseProducer called, but no Producer was initialized."]⟩ ∧
    (∀ c2 : Connector,
      (closeConnector (closeConnector c2).connector).connector =
        (closeConnector c2).connector) := by
  refine ⟨?_, ?_, ?_, ?_⟩
  · simp [closeConnector, hc, hp]
  · simp [closeConsumer, hc]
  · simp [closeProducer, hp]
  · intro c2
    simp [closeConnector]

/-- Witness for the amended C5 on a fresh connector. -/
theorem claim_C5_witness :
    closeConnector Connector.mk0 = ⟨Connector.mk0, []⟩ ∧
    closeConsumer Connector.mk0 =
      ⟨Connector.mk0,
        ["WARNING: CloseConsumer called, but no Consumer was initialized."]⟩ := by
  have h := claim_C5_close_idempotent Connector.mk0 rfl rfl
  exact ⟨h.1, h.2.1⟩

/-- C8: a fresh connector has channel length 0 (Go zero value, i.e.
unbuffered), `SetChannelLength` stores the value, and every typed channel a
successful `StartConsumer` / `StartProducer` creates has capacity exactly
the channel length configured on the connector. -/
theorem claim_C8_channel_capacity (w : World) (c : Connector)
    (cert : Except String Unit) (nc np : Except String Nat) :
    Connector.mk0.channelLength = 0 ∧
    (∀ l, (setChannelLength c l).channelLength = l) ∧
    ((startConsumer cert nc w c).err = none →
      ∃ ch, (startConsumer cert nc w c).connector.consumerChannel = some ch ∧
        ch.capacity = c.channelLength) ∧
    ((startProducer np w c).err = none →
      ∃ ch, (startProducer np w c).connector.producerChannel = some ch ∧
        ch.capacity = c.channelLength) := by
  refine ⟨rfl, fun l => rfl, ?_, ?_⟩
  · rcases cert with e | ⟨⟩
    · intro hh
      rw [startConsumer_err_certErr] at hh
      cases hh
    · rcases nc with e | h
      · intro hh
        rw [startConsumer_err_ncErr] at hh
        cases hh
      · intro _
        rw [startConsumer_connector_ok]
        exact ⟨_, rfl, initSig_channelLength w c⟩
  · rcases np with e | h
    · intro hh
      rw [startProducer_err_prodErr] at hh
      cases hh
    · intro _
      rw [startProducer_connector_ok]
      exact ⟨_, rfl, initSig_channelLength w c⟩

/-- Witness for C8 on a connector configured with channel length 9. -/
theorem claim_C8_witness :
    ∃ ch, (startConsumer (Except.ok ()) (Except.ok 1) World.start
        (setChannelLength Connector.mk0 9)).connector.consumerChannel = some ch ∧
      ch.capacity = (setChannelLength Connector.mk0 9).channelLength := by
  exact (claim_C8_channel_capacity World.start (setChannelLength Connector.mk0 9)
    (Except.ok ()) (Except.ok 1) (Except.ok 1)).2.2.1 rfl

/-- C3: when connection/authentication setup fails (the system cert pool or
the `cluster.NewConsumer` call errors, invalid credentials included),
`StartConsumer` returns that error synchronously, spawns no goroutine at
all — neither the decoding goroutine nor a logger — and is called once with
no retry; the typed consumer channel is untouched. -/
theorem claim_C3_start_error_no_goroutine (w : World) (c : Connector)
    (cert : Except String Unit) (nc : Except String Nat) (e : String)
    (h : cert = Except.error e ∨ (cert = Except.ok () ∧ nc = Except.error e)) :
    (startConsumer cert nc w c).err = some e ∧
    (startConsumer cert nc w c).spawned = [] ∧
    (startConsumer cert nc w c).connector.consumerChannel = c.consumerChannel := by
  rcases h with h | ⟨h1, h2⟩
  · subst h
    refine ⟨rfl, rfl, ?_⟩
    rw [startConsumer_connector_certErr]
    exact initSig_consumerChannel w c
  · subst h1
    subst h2
    refine ⟨rfl, rfl, ?_⟩
    rw [startConsumer_connector_ncErr]
    show (initManualErrSignal w c).2.consumerChannel = c.consumerChannel
    exact initSig_consumerChannel w c

/-- Witness for C3: a failing broker connection on a fresh connector. -/
theorem claim_C3_witness :
    (startConsumer (Except.ok ()) (Except.error "invalid credentials")
        World.start Connector.mk0).err = some "invalid credentials" ∧
    (startConsumer (Except.ok ()) (Except.error "invalid credentials")
        World.start Connector.mk0).spawned = [] := by
  have h := claim_C3_start_error_no_goroutine World.start Connector.mk0
    (Except.ok ()) (Except.error "invalid credentials") "invalid credentials"
    (Or.inr ⟨rfl, rfl⟩)
  exact ⟨h.1, h.2.1⟩

/-- C2: calling `EnableManualErrorHandling` before any `Start*` call (no
signal channel exists yet) succeeds and sets the manual flag; with the flag
set, every subsequent successful `StartConsumer` spawns only the
`decodeMessages` goroutine and every successful `StartProducer` only the
`encodeMessages` goroutine — never a logger goroutine — and the flag
persists across `Start*` calls, so this holds for all later sessions. -/
theorem claim_C2_manual_no_logger (w : World) (c : Connector)
    (hsig : c.manualErrSignal = none) :
    ∃ c1 : Connector,
      enableManualErrorHandling w c = Except.ok (w, c1) ∧
      c1.manualErrFlag = true ∧
      ∀ (w2 : World) (c2 : Connector), c2.manualErrFlag = true →
        (∀ cert nc,
          (startConsumer cert nc w2 c2).connector.manualErrFlag = true ∧
          ((startConsumer cert nc w2 c2).err = none →
            (startConsumer cert nc w2 c2).spawned =
              [Goroutine.decodeMessagesG])) ∧
        (∀ np,
          (startProducer np w2 c2).connector.manualErrFlag = true ∧
          ((startProducer np w2 c2).err = none →
            (startProducer np w2 c2).spawned =
              [Goroutine.encodeMessagesG])) := by
  refine ⟨{ c with manualErrFlag := true }, ?_, rfl, ?_⟩
  · unfold enableManualErrorHandling
    dsimp only
    rw [hsig]
  · intro w2 c2 hflag
    have hw : initManualErrSignal w2 c2 = (w2, c2) := initSig_of_flag w2 c2 hflag
    constructor
    · intro cert nc
      rcases cert with e | ⟨⟩
      · refine ⟨?_, ?_⟩
        · rw [startConsumer_connector_certErr, hw]
          exact hflag
        · intro hh
          rw [startConsumer_err_certErr] at hh
          cases hh
      · rcases nc with e | h
        · refine ⟨?_, ?_⟩
          · rw [startConsumer_connector_ncErr]
            show (initManualErrSignal w2 c2).2.manualErrFlag = true
            rw [hw]
            exact hflag
          · intro hh
            rw [startConsumer_err_ncErr] at hh
            cases hh
        · refine ⟨?_, ?_⟩
          · rw [startConsumer_connector_ok]
            show (initManualErrSignal w2 c2).2.manualErrFlag = true
            rw [hw]
            exact hflag
          · intro _
            rw [startConsumer_spawned_ok, hw]
            simp [hflag]
    · intro np
      rcases np with e | h
      · refine ⟨?_, ?_⟩
        · rw [startProducer_connector_prodErr]
          show (initManualErrSignal w2 c2).2.manualErrFlag = true
          rw [hw]
          exact hflag
        · intro hh
          rw [startProducer_err_prodErr] at hh
          cases hh
      · refine ⟨?_, ?_⟩
        · rw [startProducer_connector_ok]
          show (initManualErrSignal w2 c2).2.manualErrFlag = true
          rw [hw]
          exact hflag
        · intro _
          rw [startProducer_spawned_ok, hw]
          simp [hflag]

/-- Witness for C2: enable on a fresh connector, then a successful start
spawns only the decode goroutine. -/
theorem claim_C2_witness :
    (startConsumer (Except.ok ()) (Except.ok 5) World.start
        { Connector.mk0 with manualErrFlag := true }).spawned =
      [Goroutine.decodeMessagesG] := by
  obtain ⟨c1, _, _, h3⟩ := claim_C2_manual_no_logger World.start Connector.mk0 rfl
  exact ((h3 World.start { Connector.mk0 with manualErrFlag := true } rfl).1
    (Except.ok ()) (Except.ok 5)).2 rfl

/-- C7: a successful `StartConsumer` (resp. `StartProducer`) always
allocates a fresh typed channel, distinct (by allocation identity) from the
channel of any previous session — whose id is necessarily below the current
allocation counter — and its success does not depend on the prior session
state of the connector, so after a close each side can be restarted
independently on the same connector. -/
theorem claim_C7_fresh_restart (w : World) (c : Connector) (h hp : Nat)
    (old oldp : GoChan)
    (hold : c.consumerChannel = some old) (hlt : old.id < w.nextId)
    (holdp : c.producerChannel = some oldp) (hltp : oldp.id < w.nextId) :
    (startConsumer (Except.ok ()) (Except.ok h) w c).err = none ∧
    (∃ ch, (startConsumer (Except.ok ()) (Except.ok h) w c).connector.consumerChannel =
        some ch ∧ ch.id ≠ old.id) ∧
    (startProducer (Except.ok hp) w c).err = none ∧
    (∃ ch, (startProducer (Except.ok hp) w c).connector.producerChannel =
        some ch ∧ ch.id ≠ oldp.id) := by
  have hle := initSig_nextId_le w c
  refine ⟨rfl, ?_, rfl, ?_⟩
  · refine ⟨⟨(initManualErrSignal w c).1.nextId,
      (initManualErrSignal w c).2.channelLength⟩, ?_, ?_⟩
    · rw [startConsumer_connector_ok]
    · dsimp only
      omega
  · refine ⟨⟨(initManualErrSignal w c).1.nextId,
      (initManualErrSignal w c).2.channelLength⟩, ?_, ?_⟩
    · rw [startProducer_connector_ok]
    · dsimp only
      omega

/-- Witness for C7 on a connector carrying channels from a closed prior
session. -/
theorem claim_C7_witness :
    ∃ ch, (startConsumer (Except.ok ()) (Except.ok 7) (⟨1, []⟩ : World)
        { Connector.mk0 with
          consumerChannel := some ⟨0, 0⟩,
          producerChannel := some ⟨0, 0⟩ }).connector.consumerChannel =
      some ch ∧ ch.id ≠ (0 : Nat) := by
  have h := claim_C7_fresh_restart (⟨1, []⟩ : World)
    { Connector.mk0 with
      consumerChannel := some ⟨0, 0⟩, producerChannel := some ⟨0, 0⟩ }
    7 8 ⟨0, 0⟩ ⟨0, 0⟩ rfl (by decide) rfl (by decide)
  exact h.2.1

/-- C1: the consume loop of `ConsumeClaim` processes every claimed
message and returns nil: a payload the decoder rejects contributes one
decode-failure log line and nothing to the typed flows channel, while the
flows delivered are exactly the successful decodes in message order — so
valid payloads after a broken one still arrive and the loop never
terminates on a decode failure. -/
theorem claim_C1_broken_skipped {F : Type} (dec : List Nat → Except String F)
    (msgs : List KafkaMessage) (st : ClaimState F) :
    (consumeClaim dec msgs st).2 = none ∧
    (consumeClaim dec msgs st).1.flows =
      st.flows ++ msgs.filterMap (fun m => (dec m.value).toOption) ∧
    (consumeClaim dec msgs st).1.logged =
      st.logged ++ (msgs.filter (fun m => !(dec m.value).isOk)).map
        (fun _ => brokenMsgLog) := by
  induction msgs generalizing st with
  | nil => exact ⟨rfl, by simp [consumeClaim], by simp [consumeClaim]⟩
  | cons m rest ih =>
    cases hd : dec m.value with
    | error e =>
      simp [consumeClaim, hd, ih, Except.toOption, Except.isOk, Except.toBool,
        List.filter_cons]
    | ok fm =>
      simp [consumeClaim, hd, ih, Except.toOption, Except.isOk, Except.toBool,
        List.filter_cons]

/-- C9: `ConsumeClaim` marks every claimed message via `MarkMessage`
before attempting to decode it — the final marked list is the whole claim
for every decoder, including one that rejects every payload — so a message
whose payload fails to decode is committed all the same and will not be
redelivered from the stored offset. -/
theorem claim_C9_mark_before_decode {F : Type} (dec : List Nat → Except String F)
    (msgs : List KafkaMessage) (st : ClaimState F) :
    (consumeClaim dec msgs st).1.marked = st.marked ++ msgs := by
  induction msgs generalizing st with
  | nil => simp [consumeClaim]
  | cons m rest ih =>
    cases hd : dec m.value with
    | error e => simp [consumeClaim, hd, ih]
    | ok fm => simp [consumeClaim, hd, ih]

/-- C6 counterexample: starting a consumer with automatic error handling
and then calling `EnableManualErrorHandling` twice is a calling order of
exported `Connector` operations that raises a fatal runtime fault — the
second call executes `close` on the already-closed signal channel, which
panics in Go. -/
theorem claim_C6_counterexample :
    run [Op.startConsumerOp (Except.ok ()) (Except.ok 0), Op.enableOp,
        Op.enableOp] =
      Except.error "close of closed channel" := by
  rfl

/-- C6 (amended): in any calling order of the exported operations in which
`EnableManualErrorHandling` is invoked at most once, no operation raises a
fatal fault; likewise a (single) session `Setup` on a `Consumer` whose
ready channel is still open returns normally, and `ConsumeClaim` always
returns nil.  (The excluded orders genuinely panic: see the
counterexample.) -/
theorem claim_C6_no_fault_amended (ops : List Op)
    (hcount : countEnable ops ≤ 1) (w : World) (gc : GroupConsumer)
    (hready : gc.ready.id ∉ w.closedIds) {F : Type}
    (dec : List Nat → Except String F) (msgs : List KafkaMessage)
    (st : ClaimState F) :
    (∃ s, run ops = Except.ok s) ∧
    (∃ s, groupConsumerSetup w gc = Except.ok s) ∧
    (consumeClaim dec msgs st).2 = none := by
  refine ⟨?_, ?_, consumeClaim_returns_nil dec msgs st⟩
  · refine runFrom_ok_le_one ops (World.start, Connector.mk0) hcount ?_ ?_
    · intro i hi
      cases hi
    · intro ch hch
      cases hch
  · unfold groupConsumerSetup makeChan
    dsimp only
    unfold closeChan
    rw [if_neg hready]
    exact ⟨_, rfl⟩

/-- Witness for the amended C6: a single enable call, a first `Setup`, and
an empty claim all return normally. -/
theorem claim_C6_witness :
    (∃ s, run [Op.enableOp] = Except.ok s) ∧
    (∃ s, groupConsumerSetup World.start ⟨⟨0, 0⟩, none⟩ = Except.ok s) ∧
    (consumeClaim (fun _ => Except.ok 0) []
      (⟨[], [], []⟩ : ClaimState Nat)).2 = none :=
  claim_C6_no_fault_amended [Op.enableOp] (by decide) World.start
    ⟨⟨0, 0⟩, none⟩ (by decide) (fun _ => Except.ok 0) [] ⟨[], [], []⟩

end KafkaConnector
